import Mathlib

/-!
# Verification of the apkReforge pipeline (`apkReforge.py`)

Shallow embedding of the pipeline-orchestration logic of `apkReforge.py`:
dependency preflight, rebuild / align / sign phases, keystore provisioning,
device install fan-out, working-directory lifecycle, and the trace of external
command invocations each run makes.

External tools (apktool, zipalign, apksigner, adb, keytool) and the filesystem
are modelled by an oracle `Env`: `Env.run` gives the outcome of launching one
command vector, `Env.which` resolves a tool name on the search path,
`Env.enumDevices` is the stdout of the device-enumeration call (`none` meaning
the call raised), and the remaining fields describe the filesystem facts the
program consults.  Every external invocation a run performs is recorded as an
`Event`, so that theorems can speak about which commands were launched, with
which timeout bound, and what the run wrote or removed on disk.
-/

namespace ApkReforge

/-- Outcome of launching one external command (cf. `subprocess.run`):
normal exit with a status code, timeout (`subprocess.TimeoutExpired`), or a
failure to launch at all (any other exception). -/
inductive CmdOutcome where
  | exit (code : Nat)
  | timeout
  | launchError
  deriving DecidableEq, Repr

/-- `True` exactly when the outcome is a zero exit: this is the boolean that
`run_command` reports (non-zero exit, timeout and launch failure all map to
`False`). -/
def cmdOk : CmdOutcome → Bool
  | .exit 0 => true
  | _ => false

/-- One observable external action of a run: an external command launched with
an optional wall-clock timeout bound in seconds (`none` = unbounded), the
allocation of the ephemeral working directory (`tempfile.mkdtemp`), or the
recursive-removal attempt on it (`shutil.rmtree`, with whether it succeeded). -/
inductive Event where
  | invoke (cmd : List String) (timeoutSecs : Option Nat)
  | mkdtemp
  | rmtree (ok : Bool)
  deriving DecidableEq, Repr

/-- Oracle for everything outside the program: the search path, the behaviour
of each external command, the device-enumeration output, and the filesystem
facts the program reads. -/
structure Env where
  /-- `shutil.which tool` resolves (tool present on the search path). -/
  which : String → Bool
  /-- Outcome of launching a given command vector. -/
  run : List String → CmdOutcome
  /-- stdout lines of `adb devices`; `none` means the call raised. -/
  enumDevices : Option (List String)
  /-- `~/.android/debug.keystore` exists. -/
  debugKeystoreExists : Bool
  /-- `<input_dir>/AndroidManifest.xml` exists. -/
  manifestExists : Bool
  /-- The `targetSdkVersion="N"` attribute found in the manifest, if the
  regex search succeeds (reading failures fold into `none`). -/
  manifestTargetSdk : Option Nat

/-- The five required tools, in the order `check_dependencies` probes them. -/
def requiredTools : List String :=
  ["apktool", "zipalign", "apksigner", "adb", "keytool"]

/-- `APKReforge.check_dependencies`: resolve each required tool on the search
path, returning the name-to-presence mapping in probe order. -/
def check_dependencies (env : Env) : List (String × Bool) :=
  requiredTools.map (fun t => (t, env.which t))

/-- The list comprehension `[t for t, v in deps.items() if not v]` in
`process_apk`: the missing tools, in probe order. -/
def missingList (env : Env) : List String :=
  ((check_dependencies env).filter (fun p => !p.2)).map Prod.fst

/-- `APKReforge.run_command`: launch the command with a 120-second timeout and
report `True` iff it exited zero; also the single `Event` this records. -/
def run_command (env : Env) (cmd : List String) : Bool × List Event :=
  (cmdOk (env.run cmd), [Event.invoke cmd (some 120)])

/-- `APKReforge.detect_high_sdk`: `True` iff the manifest exists and its
`targetSdkVersion` attribute parses to a value `≥ 34`. -/
def detect_high_sdk (env : Env) : Bool :=
  if env.manifestExists then
    match env.manifestTargetSdk with
    | some n => decide (34 ≤ n)
    | none => false
  else false

/-- The first `apktool` command vector built by `rebuild_apk`: the literal
list with the conditional `'--use-aapt2'`-or-`''` element, then
`[c for c in cmd if c]` dropping empty strings. -/
def rebuildCmd (env : Env) (input_dir output_apk : String) : List String :=
  (["apktool", "b", "-o", output_apk,
    if detect_high_sdk env then "--use-aapt2" else "",
    input_dir]).filter (fun c => !(c == ""))

/-- The fallback `apktool` command vector of `rebuild_apk`. -/
def rebuildFallbackCmd (input_dir output_apk : String) : List String :=
  ["apktool", "b", input_dir, "-o", output_apk]

/-- `APKReforge.rebuild_apk` (phase 1): require the manifest marker, invoke
`apktool` (with `--use-aapt2` when `detect_high_sdk`), and on failure retry
once with the plain fallback invocation. -/
def rebuild_apk (env : Env) (input_dir output_apk : String) : Bool × List Event :=
  if !env.manifestExists then (false, [])
  else
    let (ok1, t1) := run_command env (rebuildCmd env input_dir output_apk)
    if !ok1 then
      let (ok2, t2) := run_command env (rebuildFallbackCmd input_dir output_apk)
      (ok2, t1 ++ t2)
    else (true, t1)

/-- `APKReforge.align_apk` (phase 2): `zipalign -v 4` transform, then the
`zipalign -c 4` verification gate; success only if both exit zero. -/
def align_apk (env : Env) (input_apk output_apk : String) : Bool × List Event :=
  let (ok1, t1) := run_command env ["zipalign", "-v", "4", input_apk, output_apk]
  if !ok1 then (false, t1)
  else
    let (ok2, t2) := run_command env ["zipalign", "-c", "4", output_apk]
    (ok2, t1 ++ t2)

/-- Fixed per-user debug keystore path (`~/.android/debug.keystore`). -/
def androidDebugKeystore : String := "HOME/.android/debug.keystore"

/-- Fixed generated-keystore path
(`os.path.join(tempfile.gettempdir(), 'apkreforge.keystore')`). -/
def tmpKeystorePath : String := "/tmp/apkreforge.keystore"

/-- The `keytool -genkey` command vector built by `get_keystore`. -/
def keytoolCmd : List String :=
  ["keytool", "-genkey", "-v",
   "-keystore", tmpKeystorePath,
   "-alias", "androiddebugkey",
   "-keyalg", "RSA",
   "-keysize", "2048",
   "-validity", "10000",
   "-storepass", "android",
   "-keypass", "android",
   "-dname", "CN=Android Debug,O=Android,C=US"]

/-- `APKReforge.get_keystore`: reuse the per-user debug keystore when it
exists, otherwise generate one at the fixed temp path via `keytool`;
`none` when generation fails. -/
def get_keystore (env : Env) : Option String × List Event :=
  if env.debugKeystoreExists then (some androidDebugKeystore, [])
  else
    let (ok, t) := run_command env keytoolCmd
    if ok then (some tmpKeystorePath, t) else (none, t)

/-- The `apksigner sign` command vector built by `sign_apk`. -/
def signCmd (keystore output_apk input_apk : String) : List String :=
  ["apksigner", "sign",
   "--ks", keystore,
   "--ks-pass", "pass:android",
   "--ks-key-alias", "androiddebugkey",
   "--key-pass", "pass:android",
   "--out", output_apk,
   input_apk]

/-- The `keystore_path = keystore_path or self.get_keystore()` resolution step
of `sign_apk`: an absent (or empty, hence falsy) argument falls back to
`get_keystore`. -/
def resolveKeystore (env : Env) (keystore : Option String) :
    Option String × List Event :=
  match keystore with
  | some ks => if ks == "" then get_keystore env else (some ks, [])
  | none => get_keystore env

/-- `APKReforge.sign_apk` (phase 3): resolve the keystore, sign, then the
`apksigner verify` gate; success only if both the sign invocation and the
verification exit zero. -/
def sign_apk (env : Env) (input_apk output_apk : String)
    (keystore : Option String) : Bool × List Event :=
  match resolveKeystore env keystore with
  | (none, t0) => (false, t0)
  | (some ks, t0) =>
    let (ok1, t1) := run_command env (signCmd ks output_apk input_apk)
    if !ok1 then (false, t0 ++ t1)
    else
      let (ok2, t2) := run_command env ["apksigner", "verify", output_apk]
      (ok2, t0 ++ t1 ++ t2)

/-- Substring test on character lists: the pattern occurs (contiguously) in
the subject.  `hasSeq p s` embeds Python's `p in s` for a non-empty `p`. -/
def hasSeq (pat : List Char) : List Char → Bool
  | [] => false
  | c :: rest => pat.isPrefixOf (c :: rest) || hasSeq pat rest

/-- Python's `'\tdevice' in d` eligibility test of `install_apk`. -/
def containsTabDevice (d : String) : Bool :=
  hasSeq ('\t' :: "device".toList) d.toList

/-- Python's `d.split('\t')[0]`: the characters before the first tab. -/
def tabHead (d : String) : String :=
  ⟨d.toList.takeWhile (fun c => !(c == '\t'))⟩

/-- The `adb install` command vector built by `install_apk` for one target. -/
def installCmd (device apk_path : String) : List String :=
  ["adb", "-s", device, "install", "-r", apk_path]

/-- The device-enumeration invocation: `subprocess.run(['adb', 'devices'], ...)`
made directly, with no `timeout=` argument. -/
def enumEvent : Event := Event.invoke ["adb", "devices"] none

/-- `APKReforge.install_apk` (phase 4): enumerate devices (a direct
`subprocess.run` with no timeout; `1`st component `none` models the call
raising), keep the lines after the header that contain `'\tdevice'`, and
install on each such target in turn, without aborting on individual failures;
overall `some true` only if every attempted install exited zero. -/
def install_apk (env : Env) (apk_path : String) : Option Bool × List Event :=
  match env.enumDevices with
  | none => (none, [enumEvent])
  | some lines =>
    let active := ((lines.drop 1).filter containsTabDevice).map tabHead
    if active.isEmpty then (some false, [enumEvent])
    else
      let attempts := active.map (fun d => run_command env (installCmd d apk_path))
      (some (attempts.all Prod.fst),
       enumEvent :: (attempts.map Prod.snd).flatten)

/-- One enumerated target rendered the way `adb devices` prints it:
`<id><TAB><state>`. -/
def renderLine (t : String × String) : String := t.1 ++ "\t" ++ t.2

/-- Result of one `process_apk` run: the boolean it returns, the trace of
external actions it performed, and the aggregated missing-dependency message
content when it aborted at preflight (`', '.join(missing)` names exactly this
list, in this order, in one message). -/
structure RunResult where
  ok : Bool
  trace : List Event
  missingReported : Option (List String)
  deriving DecidableEq, Repr

/-- The body of `process_apk`'s `try:` block after the working directory has
been allocated: run rebuild, align, sign in order, short-circuiting on the
first failure; then, when requested, install — a `some false` install result
is downgraded to a warning, while a raised enumeration error (`none`) falls
into the `except:` handler, turning the run's result to `False`. -/
def phasesRun (env : Env) (input_dir output_apk tempDir : String)
    (install : Bool) (keystore : Option String) : Bool × List Event :=
  let rebuilt := tempDir ++ "/unsigned.apk"
  let aligned := tempDir ++ "/aligned.apk"
  let (r1, t1) := rebuild_apk env input_dir rebuilt
  if !r1 then (false, t1)
  else
    let (r2, t2) := align_apk env rebuilt aligned
    if !r2 then (false, t1 ++ t2)
    else
      let (r3, t3) := sign_apk env aligned output_apk keystore
      if !r3 then (false, t1 ++ t2 ++ t3)
      else
        if install then
          match install_apk env output_apk with
          | (none, t4) => (false, t1 ++ t2 ++ t3 ++ t4)
          | (some _, t4) => (true, t1 ++ t2 ++ t3 ++ t4)
        else (true, t1 ++ t2 ++ t3)

/-- `APKReforge.process_apk`: preflight-gate on the dependency check (aborting
with the aggregated missing list before anything else happens), allocate the
working directory, run the phases, and — in the `finally:` — attempt the
recursive removal of the working directory exactly once, its success
(`rmtreeOk`) never influencing the returned boolean. -/
def process_apk (env : Env) (rmtreeOk : Bool)
    (input_dir output_apk tempDir : String)
    (install : Bool) (keystore : Option String) : RunResult :=
  match missingList env with
  | _ :: _ => { ok := false, trace := [], missingReported := some (missingList env) }
  | [] =>
    let (ok, t) := phasesRun env input_dir output_apk tempDir install keystore
    { ok := ok
      trace := Event.mkdtemp :: t ++ [Event.rmtree rmtreeOk]
      missingReported := none }

/-! ## Write-effect model and event predicates -/

/-- The argument following the first occurrence of `flag`, if any. -/
def afterFlag (flag : String) : List String → Option String
  | x :: y :: rest => if x == flag then some y else afterFlag flag (y :: rest)
  | _ => none

/-- Modelled from the spec: §6 gives the external collaborator interfaces
(`build`, `align`/`check`, `sign`/`verify`, `generate`) and which output file
each one produces; this maps the command shapes the program launches to the
path the invoked tool writes on success (verification-only and device
commands write nothing). -/
def cmdWrites : List String → Option String
  | "apktool" :: "b" :: rest => afterFlag "-o" rest
  | ["zipalign", "-v", _, _, out] => some out
  | "apksigner" :: "sign" :: _ :: _ :: _ :: _ :: _ :: _ :: _ :: _ :: "--out" ::
      out :: _ => some out
  | "keytool" :: "-genkey" :: "-v" :: "-keystore" :: ks :: _ => some ks
  | _ => none

/-- The event is a command invocation that wrote the file at `p`: the invoked
tool's output path is `p` and the invocation exited zero. -/
def writesOkTo (env : Env) (p : String) : Event → Bool
  | .invoke c _ => (cmdWrites c == some p) && cmdOk (env.run c)
  | _ => false

/-- Boolean string-prefix test (used to model which paths the recursive
removal of the working directory deletes). -/
def strPref (p s : String) : Bool := p.toList.isPrefixOf s.toList

/-- Effect of one event on the set of files the run has produced: a zero-exit
invocation adds the path its tool writes; a successful `rmtree` removes
everything under the working directory. -/
def applyEvent (env : Env) (tempDir : String) (fs : List String) :
    Event → List String
  | .invoke c _ =>
      match cmdWrites c with
      | some p => if cmdOk (env.run c) then p :: fs else fs
      | none => fs
  | .mkdtemp => fs
  | .rmtree ok => if ok then fs.filter (fun p => !(strPref tempDir p)) else fs

/-- The files a run's trace has produced and not removed, in the order the
events occurred. -/
def fsAfter (env : Env) (tempDir : String) (trace : List Event) : List String :=
  trace.foldl (applyEvent env tempDir) []

/-- The command vector is the `apksigner sign` invocation targeting `o`. -/
def isSignCmd (o : String) : List String → Bool
  | ["apksigner", "sign", "--ks", _, "--ks-pass", _, "--ks-key-alias", _,
     "--key-pass", _, "--out", out, _] => out == o
  | _ => false

/-- The event is a zero-exit `apksigner sign` invocation targeting `o`. -/
def isSignOkEv (env : Env) (o : String) : Event → Bool
  | .invoke c _ => isSignCmd o c && cmdOk (env.run c)
  | _ => false

/-- The command vector is the `apksigner verify` invocation on `o`. -/
def isVerifyCmd (o : String) : List String → Bool
  | ["apksigner", "verify", x] => x == o
  | _ => false

/-- The event is a zero-exit `apksigner verify` invocation on `o`. -/
def isVerifyOkEv (env : Env) (o : String) : Event → Bool
  | .invoke c _ => isVerifyCmd o c && cmdOk (env.run c)
  | _ => false

/-- The event is a `keytool` invocation (key-generation). -/
def isKeytoolEv : Event → Bool
  | .invoke c _ => c.headD "" == "keytool"
  | _ => false

/-- The event is an `rmtree` attempt on the working directory. -/
def isRmtreeEv : Event → Bool
  | .rmtree _ => true
  | _ => false

/-- The event, if a command invocation, carries the fixed 120-second timeout
bound. -/
def eventBounded120 : Event → Bool
  | .invoke _ t => t == some 120
  | _ => true

/-! ## Concrete environments used to instantiate the theorems -/

/-- A benign world: every tool resolves, every command exits zero, no device
is attached, the per-user debug keystore exists, the manifest is present with
`targetSdkVersion="30"`. -/
def baseEnv : Env where
  which := fun _ => true
  run := fun _ => CmdOutcome.exit 0
  enumDevices := some ["List of devices attached"]
  debugKeystoreExists := true
  manifestExists := true
  manifestTargetSdk := some 30

/-- World where `adb` and `keytool` are missing from the search path. -/
def envC1 : Env :=
  { baseEnv with which := fun t => !(t == "adb" || t == "keytool") }

/-- World with a low-SDK manifest where the first (plain) `apktool` invocation
fails and the fallback succeeds. -/
def envC2 : Env :=
  { baseEnv with
      run := fun c =>
        if c == ["apktool", "b", "-o", "out.apk", "in"] then CmdOutcome.exit 1
        else CmdOutcome.exit 0 }

/-- World with one ready device `A` whose install invocation fails; everything
else succeeds. -/
def envC4 : Env :=
  { baseEnv with
      enumDevices := some ["List of devices attached", "A\tdevice"]
      run := fun c =>
        if c == ["adb", "-s", "A", "install", "-r", "out.apk"] then CmdOutcome.exit 1
        else CmdOutcome.exit 0 }

/-- World where enumeration reports one target `A` in state `deviceX` (not
exactly `device`). -/
def envC5 : Env :=
  { baseEnv with enumDevices := some ["List of devices attached", "A\tdeviceX"] }

/-- World with targets `A` (ready), `B` (offline), `C` (ready) where the
install on `C` fails. -/
def envC5w : Env :=
  { baseEnv with
      enumDevices := some
        ["List of devices attached", "A\tdevice", "B\toffline", "C\tdevice"]
      run := fun c =>
        if c == ["adb", "-s", "C", "install", "-r", "final.apk"] then CmdOutcome.exit 1
        else CmdOutcome.exit 0 }

/-- World where the signature verification fails while everything else,
including the sign invocation itself, succeeds. -/
def envC7 : Env :=
  { baseEnv with
      run := fun c =>
        if c == ["apksigner", "verify", "out.apk"] then CmdOutcome.exit 1
        else CmdOutcome.exit 0 }

/-- World without the per-user debug keystore, where every command (including
`keytool`) succeeds. -/
def envC8 : Env :=
  { baseEnv with debugKeystoreExists := false }

/-- World with one ready device and every command succeeding, so the run
reaches the device-enumeration call. -/
def envC9 : Env :=
  { baseEnv with enumDevices := some ["List of devices attached", "A\tdevice"] }

/-- World where the device-enumeration call raises. -/
def envC10 : Env :=
  { baseEnv with enumDevices := none }

/-- World where every external command exceeds its timeout. -/
def envT : Env :=
  { baseEnv with run := fun _ => CmdOutcome.timeout }

/-- World where the `zipalign -c` alignment check fails while every other
command, in particular the `zipalign -v` transform, succeeds. -/
def envC3 : Env :=
  { baseEnv with
      run := fun c =>
        if c == ["zipalign", "-c", "4", "al.apk"] then CmdOutcome.exit 1
        else CmdOutcome.exit 0 }

/-! ## Basic facts -/

theorem run_command_fst (env : Env) (c : List String) :
    (run_command env c).1 = cmdOk (env.run c) := rfl

theorem run_command_snd (env : Env) (c : List String) :
    (run_command env c).2 = [Event.invoke c (some 120)] := rfl

theorem strPref_append (a b : String) : strPref a (a ++ b) = true := by
  unfold strPref
  rw [List.isPrefixOf_iff_prefix]
  exact List.prefix_append _ _

theorem ne_append_of_strPref_false {td o : String} (h : strPref td o = false)
    (s : String) : o ≠ td ++ s := by
  intro he
  rw [he, strPref_append] at h
  exact Bool.noConfusion h

theorem append_ne_of_length_lt {b c : String} (a : String)
    (h : c.data.length < b.data.length) : a ++ b ≠ c := by
  intro he
  have hd : a.data ++ b.data = c.data := congrArg String.data he
  have hl := congrArg List.length hd
  rw [List.length_append] at hl
  omega

/-! ## Which events each phase can emit -/

theorem rebuild_apk_events (env : Env) (i o : String) :
    ∀ e ∈ (rebuild_apk env i o).2, ∃ c, e = Event.invoke c (some 120) := by
  intro e he
  by_cases hm : env.manifestExists
  · by_cases h1 : cmdOk (env.run (rebuildCmd env i o))
    · simp [rebuild_apk, hm, run_command, h1] at he
      exact ⟨_, he⟩
    · simp [rebuild_apk, hm, run_command, h1] at he
      rcases he with he | he <;> exact ⟨_, he⟩
  · simp [rebuild_apk, hm] at he

theorem align_apk_events (env : Env) (i o : String) :
    ∀ e ∈ (align_apk env i o).2, ∃ c, e = Event.invoke c (some 120) := by
  intro e he
  by_cases h1 : cmdOk (env.run ["zipalign", "-v", "4", i, o])
  · simp [align_apk, run_command, h1] at he
    rcases he with he | he <;> exact ⟨_, he⟩
  · simp [align_apk, run_command, h1] at he
    exact ⟨_, he⟩

theorem get_keystore_events (env : Env) :
    ∀ e ∈ (get_keystore env).2, ∃ c, e = Event.invoke c (some 120) := by
  intro e he
  by_cases hk : env.debugKeystoreExists
  · simp [get_keystore, hk] at he
  · by_cases h1 : cmdOk (env.run keytoolCmd)
    · simp [get_keystore, hk, run_command, h1] at he
      exact ⟨_, he⟩
    · simp [get_keystore, hk, run_command, h1] at he
      exact ⟨_, he⟩

theorem resolveKeystore_events (env : Env) (k : Option String) :
    ∀ e ∈ (resolveKeystore env k).2, ∃ c, e = Event.invoke c (some 120) := by
  intro e he
  rcases k with _ | ks
  · exact get_keystore_events env e he
  · by_cases hb : (ks == "") = true
    · simp only [resolveKeystore, hb, if_true] at he
      exact get_keystore_events env e he
    · simp [resolveKeystore, hb] at he

theorem sign_apk_events (env : Env) (i o : String) (k : Option String) :
    ∀ e ∈ (sign_apk env i o k).2, ∃ c, e = Event.invoke c (some 120) := by
  intro e he
  have hres := resolveKeystore_events env k
  rcases hr : resolveKeystore env k with ⟨ks?, t0⟩
  rw [hr] at hres
  rcases ks? with _ | ks
  · simp only [sign_apk, hr] at he
    exact hres e he
  · by_cases h1 : cmdOk (env.run (signCmd ks o i))
    · simp [sign_apk, hr, run_command, h1] at he
      rcases he with he | he | he
      · exact hres e he
      · exact ⟨_, he⟩
      · exact ⟨_, he⟩
    · simp [sign_apk, hr, run_command, h1] at he
      rcases he with he | he
      · exact hres e he
      · exact ⟨_, he⟩

theorem install_apk_events (env : Env) (p : String) :
    ∀ e ∈ (install_apk env p).2,
      (∃ c, e = Event.invoke c (some 120)) ∨ e = enumEvent := by
  intro e he
  rcases hd : env.enumDevices with _ | lines
  · simp [install_apk, hd] at he
    right; exact he
  · simp only [install_apk, hd] at he
    split at he
    · simp at he
      right; exact he
    · simp [run_command] at he
      rcases he with he | he
      · right; exact he
      · obtain ⟨d, _, hde⟩ := he
        exact Or.inl ⟨_, hde⟩

theorem phasesRun_events (env : Env) (i o td : String) (inst : Bool)
    (k : Option String) :
    ∀ e ∈ (phasesRun env i o td inst k).2,
      (∃ c, e = Event.invoke c (some 120)) ∨ e = enumEvent := by
  intro e he
  have h1 := rebuild_apk_events env i (td ++ "/unsigned.apk")
  have h2 := align_apk_events env (td ++ "/unsigned.apk") (td ++ "/aligned.apk")
  have h3 := sign_apk_events env (td ++ "/aligned.apk") o k
  have h4 := install_apk_events env o
  rcases hr : rebuild_apk env i (td ++ "/unsigned.apk") with ⟨r1, t1⟩
  rw [hr] at h1
  rcases ha : align_apk env (td ++ "/unsigned.apk") (td ++ "/aligned.apk") with ⟨r2, t2⟩
  rw [ha] at h2
  rcases hs : sign_apk env (td ++ "/aligned.apk") o k with ⟨r3, t3⟩
  rw [hs] at h3
  rcases hi : install_apk env o with ⟨r4, t4⟩
  rw [hi] at h4
  cases r1
  · simp [phasesRun, hr] at he
    exact Or.inl (h1 e he)
  · cases r2
    · simp [phasesRun, hr, ha] at he
      rcases he with he | he
      · exact Or.inl (h1 e he)
      · exact Or.inl (h2 e he)
    · cases r3
      · simp [phasesRun, hr, ha, hs] at he
        rcases he with he | he | he
        · exact Or.inl (h1 e he)
        · exact Or.inl (h2 e he)
        · exact Or.inl (h3 e he)
      · cases inst
        · simp [phasesRun, hr, ha, hs] at he
          rcases he with he | he | he
          · exact Or.inl (h1 e he)
          · exact Or.inl (h2 e he)
          · exact Or.inl (h3 e he)
        · rcases r4 with _ | b <;>
          · simp [phasesRun, hr, ha, hs, hi] at he
            rcases he with he | he | he | he
            · exact Or.inl (h1 e he)
            · exact Or.inl (h2 e he)
            · exact Or.inl (h3 e he)
            · exact h4 e he

theorem phasesRun_no_rmtree (env : Env) (i o td : String) (inst : Bool)
    (k : Option String) :
    (phasesRun env i o td inst k).2.countP isRmtreeEv = 0 := by
  rw [List.countP_eq_zero]
  intro e he
  rcases phasesRun_events env i o td inst k e he with ⟨c, rfl⟩ | rfl <;>
    simp [isRmtreeEv, enumEvent]

/-! ## C1: missing dependencies abort the run before anything happens -/

/-- C1: whenever the dependency check finds at least one of the five required
tools absent, `process_apk` returns failure with an empty action trace (so no
phase ran and the working directory was never allocated), and the failure
message carries the complete ordered list of missing tools in one message;
moreover that list is exactly the set of required tools the search path does
not resolve. -/
theorem C1_missing_deps_abort (env : Env) (rmOk : Bool) (i o td : String)
    (inst : Bool) (k : Option String) (hm : missingList env ≠ []) :
    process_apk env rmOk i o td inst k =
      { ok := false, trace := [], missingReported := some (missingList env) } ∧
    missingList env = requiredTools.filter (fun t => !env.which t) := by
  constructor
  · rcases hml : missingList env with _ | ⟨t, ts⟩
    · exact absurd hml hm
    · simp [process_apk, hml]
  · simp [missingList, check_dependencies, List.filter_map, List.map_map,
      Function.comp_def]

/-- Witness for C1 at a world where `adb` and `keytool` are missing: the run
fails, performs no action, and reports both missing tools at once. -/
theorem C1_missing_deps_abort_witness :
    (process_apk envC1 true "in" "out.apk" "/tmp/w" false none =
      { ok := false, trace := [], missingReported := some ["adb", "keytool"] }) ∧
    missingList envC1 = ["adb", "keytool"] := by
  have h := C1_missing_deps_abort envC1 true "in" "out.apk" "/tmp/w" false none
    (by decide)
  refine ⟨?_, ?_⟩
  · rw [h.1]
    congr 1
  · decide

/-! ## C6: the working directory is removed exactly once, on every exit path -/

/-- C6: for every run that allocates the ephemeral working directory (i.e.
passes the dependency gate), the recursive-removal attempt occurs exactly once
and is the last action of the run — whatever exit path the run takes,
including phase failures and a raised enumeration error — and the outcome of
the removal attempt (`rmOk` vs `rmOk'`) never changes the run's returned
result. -/
theorem C6_cleanup_exactly_once (env : Env) (rmOk rmOk' : Bool)
    (i o td : String) (inst : Bool) (k : Option String) :
    (missingList env = [] →
      (process_apk env rmOk i o td inst k).trace.countP isRmtreeEv = 1 ∧
      (process_apk env rmOk i o td inst k).trace.getLast? =
        some (Event.rmtree rmOk)) ∧
    (process_apk env rmOk i o td inst k).ok =
      (process_apk env rmOk' i o td inst k).ok := by
  rcases hp : phasesRun env i o td inst k with ⟨pok, pt⟩
  have hcount : pt.countP isRmtreeEv = 0 := by
    have h := phasesRun_no_rmtree env i o td inst k
    rw [hp] at h
    exact h
  constructor
  · intro hml
    constructor
    · simp [process_apk, hml, hp, List.countP_cons, List.countP_append, hcount,
        isRmtreeEv]
    · simp only [process_apk, hml, hp]
      rw [List.getLast?_concat]
  · rcases hml : missingList env with _ | ⟨t, ts⟩
    · simp [process_apk, hml, hp]
    · simp [process_apk, hml]

/-- Witness for C6 at a benign world: one removal attempt, last in the trace,
and flipping the removal outcome does not change the run's result. -/
theorem C6_cleanup_exactly_once_witness :
    (process_apk baseEnv true "in" "out.apk" "/tmp/w" false none).trace.countP
        isRmtreeEv = 1 ∧
    (process_apk baseEnv true "in" "out.apk" "/tmp/w" false none).trace.getLast? =
      some (Event.rmtree true) ∧
    (process_apk baseEnv true "in" "out.apk" "/tmp/w" false none).ok =
      (process_apk baseEnv false "in" "out.apk" "/tmp/w" false none).ok := by
  have h := C6_cleanup_exactly_once baseEnv true false "in" "out.apk" "/tmp/w"
    false none
  have h1 := h.1 (by decide)
  exact ⟨h1.1, h1.2, h.2⟩

/-! ## C4: an install failure is downgraded, the run still succeeds -/

/-- C4: when rebuild, align and sign all succeed and installation was
requested, an install phase that returns failure does not propagate:
`process_apk` still returns overall success. -/
theorem C4_install_failure_downgraded (env : Env) (rmOk : Bool)
    (i o td : String) (k : Option String)
    (hml : missingList env = [])
    (h1 : (rebuild_apk env i (td ++ "/unsigned.apk")).1 = true)
    (h2 : (align_apk env (td ++ "/unsigned.apk") (td ++ "/aligned.apk")).1 = true)
    (h3 : (sign_apk env (td ++ "/aligned.apk") o k).1 = true)
    (h4 : (install_apk env o).1 = some false) :
    (process_apk env rmOk i o td true k).ok = true := by
  rcases hr : rebuild_apk env i (td ++ "/unsigned.apk") with ⟨r1, t1⟩
  rw [hr] at h1
  obtain rfl : r1 = true := h1
  rcases ha : align_apk env (td ++ "/unsigned.apk") (td ++ "/aligned.apk") with ⟨r2, t2⟩
  rw [ha] at h2
  obtain rfl : r2 = true := h2
  rcases hs : sign_apk env (td ++ "/aligned.apk") o k with ⟨r3, t3⟩
  rw [hs] at h3
  obtain rfl : r3 = true := h3
  rcases hi : install_apk env o with ⟨r4, t4⟩
  rw [hi] at h4
  obtain rfl : r4 = some false := h4
  simp [process_apk, hml, phasesRun, hr, ha, hs, hi]

/-- Witness for C4: with one ready device whose install invocation exits
non-zero and everything else succeeding, the run still reports success. -/
theorem C4_install_failure_downgraded_witness :
    (process_apk envC4 true "in" "out.apk" "/tmp/w" true none).ok = true :=
  C4_install_failure_downgraded envC4 true "in" "out.apk" "/tmp/w" none
    (by decide) (by decide) (by decide) (by decide) (by decide)

/-! ## C10: a raised enumeration error is not downgraded -/

/-- C10: if the device-enumeration call raises (modelled by
`Env.enumDevices = none`), the exception propagates out of `install_apk`
(result `none` rather than `some b`), and a run whose first three phases
succeeded then reports overall failure — unlike an install phase that merely
returns failure (cf. C4). -/
theorem C10_enum_exception_fails_run (env : Env) (rmOk : Bool)
    (i o td : String) (k : Option String)
    (henum : env.enumDevices = none) :
    (install_apk env o).1 = none ∧
    (missingList env = [] →
     (rebuild_apk env i (td ++ "/unsigned.apk")).1 = true →
     (align_apk env (td ++ "/unsigned.apk") (td ++ "/aligned.apk")).1 = true →
     (sign_apk env (td ++ "/aligned.apk") o k).1 = true →
     (process_apk env rmOk i o td true k).ok = false) := by
  constructor
  · simp [install_apk, henum]
  · intro hml h1 h2 h3
    rcases hr : rebuild_apk env i (td ++ "/unsigned.apk") with ⟨r1, t1⟩
    rw [hr] at h1
    obtain rfl : r1 = true := h1
    rcases ha : align_apk env (td ++ "/unsigned.apk") (td ++ "/aligned.apk") with ⟨r2, t2⟩
    rw [ha] at h2
    obtain rfl : r2 = true := h2
    rcases hs : sign_apk env (td ++ "/aligned.apk") o k with ⟨r3, t3⟩
    rw [hs] at h3
    obtain rfl : r3 = true := h3
    simp [process_apk, hml, phasesRun, hr, ha, hs, install_apk, henum]

/-- Witness for C10: a world where enumeration raises and every command exits
zero — the exception escapes `install_apk` and the run fails overall. -/
theorem C10_enum_exception_fails_run_witness :
    (install_apk envC10 "out.apk").1 = none ∧
    (process_apk envC10 true "in" "out.apk" "/tmp/w" true none).ok = false := by
  have h := C10_enum_exception_fails_run envC10 true "in" "out.apk" "/tmp/w"
    none (by decide)
  exact ⟨h.1, h.2 (by decide) (by decide) (by decide) (by decide)⟩

/-! ## C9: timeout bounds on external invocations -/

/-- C9 counterexample: in a run that reaches the install phase, not every
external invocation carries the 120-second timeout bound — the
device-enumeration call (`adb devices`) is launched with no timeout at all,
refuting the claim for that invocation. -/
theorem C9_timeout_bound_counterexample :
    (process_apk envC9 true "in" "out.apk" "/tmp/w" true none).trace.all
        eventBounded120 = false ∧
    enumEvent ∈ (process_apk envC9 true "in" "out.apk" "/tmp/w" true none).trace := by
  decide

/-- C9 amended: every external invocation except the device-enumeration call
is bounded by the fixed 120-second timeout, and a timeout is a hard failure of
that invocation (`run_command` reports `false`); the enumeration call is the
one invocation launched with no bound. -/
theorem C9_timeout_bound_amended (env : Env) (rmOk : Bool) (i o td : String)
    (inst : Bool) (k : Option String) :
    (∀ e ∈ (process_apk env rmOk i o td inst k).trace,
        eventBounded120 e = true ∨ e = enumEvent) ∧
    (∀ c, env.run c = CmdOutcome.timeout → (run_command env c).1 = false) := by
  constructor
  · intro e he
    rcases hml : missingList env with _ | ⟨t, ts⟩
    · rcases hp : phasesRun env i o td inst k with ⟨pok, pt⟩
      have hev := phasesRun_events env i o td inst k
      rw [hp] at hev
      simp [process_apk, hml, hp] at he
      rcases he with rfl | he | rfl
      · left; rfl
      · rcases hev e he with ⟨c, rfl⟩ | rfl
        · left; simp [eventBounded120]
        · right; rfl
      · left; rfl
    · simp [process_apk, hml] at he
  · intro c hc
    simp [run_command, hc, cmdOk]

/-- Witness for C9 amended: the allocation event of a run is bounded-or-enum,
and a timed-out invocation is reported as a failure. -/
theorem C9_timeout_bound_amended_witness :
    (eventBounded120 Event.mkdtemp = true ∨ Event.mkdtemp = enumEvent) ∧
    (run_command envT ["apktool", "b", "-o", "out.apk", "in"]).1 = false :=
  ⟨(C9_timeout_bound_amended envT true "in" "out.apk" "/tmp/w" false none).1
      Event.mkdtemp (by decide),
   (C9_timeout_bound_amended envT true "in" "out.apk" "/tmp/w" false none).2
      ["apktool", "b", "-o", "out.apk", "in"] rfl⟩

/-! ## C2: rebuild alt-mode preference and fallback policy -/

/-- C2 counterexample: with a low-SDK manifest (`targetSdkVersion="30"`) whose
first — plain, not alt-mode — `apktool` invocation fails, the plain fallback
invocation is still made, refuting that the fallback happens only after a
failed alt-mode (`--use-aapt2`) invocation. -/
theorem C2_plain_fallback_counterexample :
    Event.invoke (rebuildFallbackCmd "in" "out.apk") (some 120) ∈
        (rebuild_apk envC2 "in" "out.apk").2 ∧
    "--use-aapt2" ∉ rebuildCmd envC2 "in" "out.apk" := by
  decide

/-- C2 amended: the first `apktool` invocation uses `--use-aapt2` exactly when
the manifest's target-version attribute is at least 34; a single plain
fallback invocation is made exactly when the first invocation failed (whether
or not it used the alt mode); the tool is invoked at most twice (the trace is
one or two invocations); and the phase succeeds iff the first invocation or
the fallback exits zero — so if both attempts fail the phase fails. -/
theorem C2_rebuild_fallback_amended (env : Env) (i o : String)
    (hm : env.manifestExists = true)
    (hi : i ≠ "--use-aapt2") (ho : o ≠ "--use-aapt2") :
    ("--use-aapt2" ∈ rebuildCmd env i o ↔
      ∃ n, env.manifestTargetSdk = some n ∧ 34 ≤ n) ∧
    ((rebuild_apk env i o).2 = [Event.invoke (rebuildCmd env i o) (some 120)] ∨
      (rebuild_apk env i o).2 =
        [Event.invoke (rebuildCmd env i o) (some 120),
         Event.invoke (rebuildFallbackCmd i o) (some 120)]) ∧
    ((rebuild_apk env i o).2.length = 2 ↔
      cmdOk (env.run (rebuildCmd env i o)) = false) ∧
    (rebuild_apk env i o).1 =
      (cmdOk (env.run (rebuildCmd env i o)) ||
        cmdOk (env.run (rebuildFallbackCmd i o))) := by
  have hdet : detect_high_sdk env = true ↔
      ∃ n, env.manifestTargetSdk = some n ∧ 34 ≤ n := by
    unfold detect_high_sdk
    rw [hm]
    rcases hts : env.manifestTargetSdk with _ | n <;> simp [hts]
  refine ⟨?_, ?_, ?_, ?_⟩
  · rw [← hdet]
    cases hsdk : detect_high_sdk env
    · simp [rebuildCmd, hsdk, List.mem_filter, hi, ho]
      exact ⟨Ne.symm ho, Ne.symm hi⟩
    · simp [rebuildCmd, hsdk, List.mem_filter]
  · cases hc1 : cmdOk (env.run (rebuildCmd env i o)) <;>
      simp [rebuild_apk, hm, run_command, hc1]
  · cases hc1 : cmdOk (env.run (rebuildCmd env i o)) <;>
      simp [rebuild_apk, hm, run_command, hc1]
  · cases hc1 : cmdOk (env.run (rebuildCmd env i o)) <;>
      simp [rebuild_apk, hm, run_command, hc1]

/-- Witness for C2 amended at the counterexample world: no alt-mode element,
two invocations (the plain first attempt failed), and the phase result is the
disjunction of the two attempts' outcomes. -/
theorem C2_rebuild_fallback_amended_witness :
    ("--use-aapt2" ∈ rebuildCmd envC2 "in" "out.apk" ↔
      ∃ n, envC2.manifestTargetSdk = some n ∧ 34 ≤ n) ∧
    ((rebuild_apk envC2 "in" "out.apk").2 =
        [Event.invoke (rebuildCmd envC2 "in" "out.apk") (some 120)] ∨
      (rebuild_apk envC2 "in" "out.apk").2 =
        [Event.invoke (rebuildCmd envC2 "in" "out.apk") (some 120),
         Event.invoke (rebuildFallbackCmd "in" "out.apk") (some 120)]) ∧
    ((rebuild_apk envC2 "in" "out.apk").2.length = 2 ↔
      cmdOk (envC2.run (rebuildCmd envC2 "in" "out.apk")) = false) ∧
    (rebuild_apk envC2 "in" "out.apk").1 =
      (cmdOk (envC2.run (rebuildCmd envC2 "in" "out.apk")) ||
        cmdOk (envC2.run (rebuildFallbackCmd "in" "out.apk"))) :=
  C2_rebuild_fallback_amended envC2 "in" "out.apk" (by decide) (by decide)
    (by decide)

/-! ## C3: transform-then-verify gating of the align and sign phases -/

theorem get_keystore_trace (env : Env) :
    (get_keystore env).2 = [] ∨
    (get_keystore env).2 = [Event.invoke keytoolCmd (some 120)] := by
  by_cases hk : env.debugKeystoreExists
  · left; simp [get_keystore, hk]
  · by_cases h1 : cmdOk (env.run keytoolCmd) <;>
      · right; simp [get_keystore, hk, run_command, h1]

theorem resolveKeystore_trace (env : Env) (k : Option String) :
    (resolveKeystore env k).2 = [] ∨
    (resolveKeystore env k).2 = [Event.invoke keytoolCmd (some 120)] := by
  rcases k with _ | ks
  · exact get_keystore_trace env
  · by_cases hb : (ks == "") = true
    · simp only [resolveKeystore, hb, if_true]
      exact get_keystore_trace env
    · left; simp [resolveKeystore, hb]

theorem resolveKeystore_no_sign_events (env : Env) (k : Option String)
    (o : String) :
    (resolveKeystore env k).2.any (isSignOkEv env o) = false ∧
    (resolveKeystore env k).2.any (isVerifyOkEv env o) = false := by
  rcases resolveKeystore_trace env k with h | h <;> rw [h] <;>
    simp [isSignOkEv, isVerifyOkEv, isSignCmd, isVerifyCmd, keytoolCmd]

/-- C3: the alignment phase succeeds iff both the `zipalign -v` transform and
the `zipalign -c` check exit zero; the signing phase succeeds iff its trace
contains a zero-exit sign invocation and a zero-exit verification invocation
on the output; and in both phases a zero-exit transform followed by a
non-zero-exit check yields phase failure. -/
theorem C3_transform_then_verify_gating (env : Env) (i o : String)
    (k : Option String) :
    ((align_apk env i o).1 =
      (cmdOk (env.run ["zipalign", "-v", "4", i, o]) &&
        cmdOk (env.run ["zipalign", "-c", "4", o]))) ∧
    ((sign_apk env i o k).1 = true ↔
      ((sign_apk env i o k).2.any (isSignOkEv env o) = true ∧
        (sign_apk env i o k).2.any (isVerifyOkEv env o) = true)) ∧
    (cmdOk (env.run ["zipalign", "-v", "4", i, o]) = true →
      cmdOk (env.run ["zipalign", "-c", "4", o]) = false →
      (align_apk env i o).1 = false) ∧
    ((sign_apk env i o k).2.any (isSignOkEv env o) = true →
      cmdOk (env.run ["apksigner", "verify", o]) = false →
      (sign_apk env i o k).1 = false) := by
  obtain ⟨hs0, hv0⟩ := resolveKeystore_no_sign_events env k o
  rcases hr : resolveKeystore env k with ⟨ks?, t0⟩
  have hs0' : t0.any (isSignOkEv env o) = false := by rw [hr] at hs0; exact hs0
  have hv0' : t0.any (isVerifyOkEv env o) = false := by rw [hr] at hv0; exact hv0
  have halign : (align_apk env i o).1 =
      (cmdOk (env.run ["zipalign", "-v", "4", i, o]) &&
        cmdOk (env.run ["zipalign", "-c", "4", o])) := by
    by_cases h1 : cmdOk (env.run ["zipalign", "-v", "4", i, o]) <;>
      simp [align_apk, run_command, h1]
  have hsign : (sign_apk env i o k).1 = true ↔
      ((sign_apk env i o k).2.any (isSignOkEv env o) = true ∧
        (sign_apk env i o k).2.any (isVerifyOkEv env o) = true) := by
    rcases ks? with _ | ks
    · simp [sign_apk, hr, hs0']
    · have e1 : isSignOkEv env o (Event.invoke (signCmd ks o i) (some 120)) =
          cmdOk (env.run (signCmd ks o i)) := by
        simp [isSignOkEv, isSignCmd, signCmd]
      have e2 : isVerifyOkEv env o (Event.invoke (signCmd ks o i) (some 120)) =
          false := by
        simp [isVerifyOkEv, isVerifyCmd, signCmd]
      have e3 : isSignOkEv env o
          (Event.invoke ["apksigner", "verify", o] (some 120)) = false := by
        simp [isSignOkEv, isSignCmd]
      have e4 : isVerifyOkEv env o
          (Event.invoke ["apksigner", "verify", o] (some 120)) =
          cmdOk (env.run ["apksigner", "verify", o]) := by
        simp [isVerifyOkEv, isVerifyCmd]
      by_cases h1 : cmdOk (env.run (signCmd ks o i))
      · by_cases h2 : cmdOk (env.run ["apksigner", "verify", o]) <;>
          simp [sign_apk, hr, run_command, h1, h2, List.any_append, hs0', hv0',
            e1, e2, e3, e4]
      · simp [sign_apk, hr, run_command, h1, List.any_append, hs0', hv0',
          e1, e2]
  refine ⟨halign, hsign, ?_, ?_⟩
  · intro h1 h2
    rw [halign, h1, h2]
    rfl
  · intro hany h2
    rcases ks? with _ | ks
    · have hfalse : (sign_apk env i o k).2.any (isSignOkEv env o) = false := by
        simp only [sign_apk, hr]
        exact hs0'
      rw [hany] at hfalse
      exact Bool.noConfusion hfalse
    · by_cases h1 : cmdOk (env.run (signCmd ks o i))
      · simp [sign_apk, hr, run_command, h1, h2]
      · simp [sign_apk, hr, run_command, h1]

/-- Witness for C3: a zero-exit align transform whose check exits non-zero
makes the phase fail, and a zero-exit sign invocation whose verification
exits non-zero makes the signing phase fail. -/
theorem C3_transform_then_verify_gating_witness :
    (align_apk envC3 "un.apk" "al.apk").1 = false ∧
    (sign_apk envC7 "al.apk" "out.apk" none).1 = false := by
  have h1 := (C3_transform_then_verify_gating envC3 "un.apk" "al.apk" none).2.2.1
    (by decide) (by decide)
  have h2 := (C3_transform_then_verify_gating envC7 "al.apk" "out.apk" none).2.2.2
    (by decide) (by decide)
  exact ⟨h1, h2⟩

/-! ## C5: install fan-out and target eligibility -/

theorem hasSeq_tab_not_mem {s : List Char} (d : List Char) (hs : '\t' ∉ s) :
    hasSeq ('\t' :: d) s = false := by
  induction s with
  | nil => rfl
  | cons c cs ih =>
    have hb : (('\t' : Char) == c) = false :=
      beq_false_of_ne (fun h => hs (by rw [h]; exact List.mem_cons_self c cs))
    simp [hasSeq, List.isPrefixOf, hb,
      ih (fun h => hs (List.mem_cons_of_mem _ h))]

theorem hasSeq_render {i s : List Char} (d : List Char)
    (hi : '\t' ∉ i) (hs : '\t' ∉ s) :
    hasSeq ('\t' :: d) (i ++ '\t' :: s) = d.isPrefixOf s := by
  induction i with
  | nil =>
    simp [hasSeq, List.isPrefixOf, hasSeq_tab_not_mem d hs]
  | cons c cs ih =>
    have hb : (('\t' : Char) == c) = false :=
      beq_false_of_ne (fun h => hi (by rw [h]; exact List.mem_cons_self c cs))
    simp [hasSeq, List.isPrefixOf, hb,
      ih (fun h => hi (List.mem_cons_of_mem _ h))]

theorem takeWhile_render {i : List Char} (s : List Char) (hi : '\t' ∉ i) :
    (i ++ '\t' :: s).takeWhile (fun c => !(c == '\t')) = i := by
  induction i with
  | nil => simp [List.takeWhile_cons]
  | cons c cs ih =>
    have hb : (c == ('\t' : Char)) = false :=
      beq_false_of_ne (fun h => hi (by rw [← h]; exact List.mem_cons_self c cs))
    simp [List.takeWhile_cons, hb,
      ih (fun h => hi (List.mem_cons_of_mem _ h))]

theorem renderLine_toList (t : String × String) :
    (renderLine t).toList = t.1.toList ++ '\t' :: t.2.toList := by
  show (t.1.toList ++ ['\t']) ++ t.2.toList = _
  rw [List.append_assoc]
  rfl

theorem containsTabDevice_render (t : String × String)
    (h1 : '\t' ∉ t.1.toList) (h2 : '\t' ∉ t.2.toList) :
    containsTabDevice (renderLine t) =
      "device".toList.isPrefixOf t.2.toList := by
  unfold containsTabDevice
  rw [renderLine_toList, hasSeq_render _ h1 h2]

theorem tabHead_render (t : String × String) (h1 : '\t' ∉ t.1.toList) :
    tabHead (renderLine t) = t.1 := by
  apply String.ext
  show (renderLine t).toList.takeWhile (fun c => !(c == '\t')) = _
  rw [renderLine_toList]
  exact takeWhile_render _ h1

theorem install_active_eq (targets : List (String × String))
    (h : ∀ t ∈ targets, '\t' ∉ t.1.toList ∧ '\t' ∉ t.2.toList) :
    ((targets.map renderLine).filter containsTabDevice).map tabHead =
      (targets.filter
        (fun t => "device".toList.isPrefixOf t.2.toList)).map Prod.fst := by
  induction targets with
  | nil => rfl
  | cons t ts ih =>
    obtain ⟨h1, h2⟩ := h t (List.mem_cons_self t ts)
    have hrec := ih (fun x hx => h x (List.mem_cons_of_mem _ hx))
    simp only [List.map_cons, List.filter_cons, containsTabDevice_render t h1 h2]
    by_cases hp : "device".toList.isPrefixOf t.2.toList = true
    · rw [if_pos hp, if_pos hp, List.map_cons, List.map_cons, hrec,
        tabHead_render t h1]
    · rw [if_neg hp, if_neg hp, hrec]

theorem flatten_map_singleton {α β : Type} (f : α → β) (l : List α) :
    (l.map (fun t => [f t])).flatten = l.map f := by
  induction l with
  | nil => rfl
  | cons t ts ih => simp [ih]

theorem all_map_pair_fst {α β : Type} (f : α → Bool) (g : α → β)
    (l : List α) :
    (l.map (fun t => (f t, g t))).all Prod.fst = l.all f := by
  induction l with
  | nil => rfl
  | cons t ts ih => simp [ih]

/-- C5 counterexample: with the enumeration reporting the single target
`("A", "deviceX")` — a state that is not exactly `device` — the installer
still attempts installation on `A`, because the code tests for the substring
`"\tdevice"` in the line rather than comparing the state for equality. -/
theorem C5_exact_state_counterexample :
    envC5.enumDevices =
      some ["List of devices attached", renderLine ("A", "deviceX")] ∧
    Event.invoke (installCmd "A" "final.apk") (some 120) ∈
      (install_apk envC5 "final.apk").2 ∧
    "deviceX" ≠ "device" := by
  decide

/-- C5 amended: a target is attempted exactly when its reported state begins
with `device` (for well-formed tab-free `id`/`state` fields) — this includes,
but is not limited to, the state being exactly `device`; zero eligible targets
yield failure; every eligible target is attempted, in order, so a failure on
one target does not abort the rest; and the overall result is success iff
every attempted target's install invocation exited zero. -/
theorem C5_install_fanout_amended (env : Env) (p header : String)
    (targets : List (String × String))
    (henum : env.enumDevices = some (header :: targets.map renderLine))
    (htab : ∀ t ∈ targets, '\t' ∉ t.1.toList ∧ '\t' ∉ t.2.toList) :
    ((install_apk env p).2 = enumEvent ::
      (targets.filter (fun t => "device".toList.isPrefixOf t.2.toList)).map
        (fun t => Event.invoke (installCmd t.1 p) (some 120))) ∧
    (targets.filter (fun t => "device".toList.isPrefixOf t.2.toList) = [] →
      (install_apk env p).1 = some false) ∧
    (targets.filter (fun t => "device".toList.isPrefixOf t.2.toList) ≠ [] →
      (install_apk env p).1 =
        some ((targets.filter
            (fun t => "device".toList.isPrefixOf t.2.toList)).all
          (fun t => cmdOk (env.run (installCmd t.1 p))))) := by
  have hact := install_active_eq targets htab
  rcases hel : targets.filter (fun t => "device".toList.isPrefixOf t.2.toList)
    with _ | ⟨e, es⟩
  · rw [hel] at hact
    refine ⟨?_, fun _ => ?_, fun hne => absurd hel hne⟩
    · rw [hel]
      simp [install_apk, henum, hact]
    · simp [install_apk, henum, hact]
  · rw [hel] at hact
    refine ⟨?_, fun hcontra => ?_, fun _ => ?_⟩
    · rw [hel]
      simp [install_apk, henum, hact, flatten_map_singleton, run_command,
        List.map_map, Function.comp_def]
    · rw [hel] at hcontra
      exact List.noConfusion hcontra
    · rw [hel]
      simp [install_apk, henum, hact, all_map_pair_fst, run_command,
        List.map_map, Function.comp_def]

/-- Witness for C5 amended at the spec's own example targets
`[("A","device"), ("B","offline"), ("C","device")]` with the install on `C`
failing: only `A` and `C` are attempted (both of them, in order), and the
overall result is failure because not every attempted install succeeded. -/
theorem C5_install_fanout_amended_witness :
    ((install_apk envC5w "final.apk").2 = enumEvent ::
      (([(("A" : String), ("device" : String)), ("B", "offline"),
          ("C", "device")]).filter
          (fun t => "device".toList.isPrefixOf t.2.toList)).map
        (fun t => Event.invoke (installCmd t.1 "final.apk") (some 120))) ∧
    (([(("A" : String), ("device" : String)), ("B", "offline"),
        ("C", "device")]).filter
        (fun t => "device".toList.isPrefixOf t.2.toList) = [] →
      (install_apk envC5w "final.apk").1 = some false) ∧
    (([(("A" : String), ("device" : String)), ("B", "offline"),
        ("C", "device")]).filter
        (fun t => "device".toList.isPrefixOf t.2.toList) ≠ [] →
      (install_apk envC5w "final.apk").1 =
        some ((([(("A" : String), ("device" : String)), ("B", "offline"),
            ("C", "device")]).filter
            (fun t => "device".toList.isPrefixOf t.2.toList)).all
          (fun t => cmdOk (envC5w.run (installCmd t.1 "final.apk"))))) :=
  C5_install_fanout_amended envC5w "final.apk" "List of devices attached"
    [("A", "device"), ("B", "offline"), ("C", "device")] (by decide) (by decide)

/-! ## C8: keystore provisioning across two identical runs -/

/-- C8 counterexample: in a world without the per-user debug keystore, the
first full run generates the temporary keystore via `keytool` and that file
survives the run (it is outside the working directory); yet a second identical
run — the program consults nothing that changed, in particular it never checks
whether the generated keystore already exists — invokes the key-generation
tool again instead of reusing the file silently. -/
theorem C8_keystore_regen_counterexample :
    (process_apk envC8 true "in" "out.apk" "/tmp/w1" false
        none).trace.countP isKeytoolEv = 1 ∧
    tmpKeystorePath ∈ fsAfter envC8 "/tmp/w1"
      (process_apk envC8 true "in" "out.apk" "/tmp/w1" false none).trace ∧
    (process_apk envC8 true "in" "out.apk" "/tmp/w2" false
        none).trace.countP isKeytoolEv = 1 := by
  decide

/-- C8 amended: when the per-user debug keystore is absent, every run —
in particular a second run on identical input — invokes the key-generation
tool exactly once and, on success, resolves the same fixed temporary path, so
the second run re-generates at (rather than silently reuses) the same keystore
file; reuse without regeneration happens only when the per-user debug keystore
exists. -/
theorem C8_keystore_amended (env : Env) :
    (env.debugKeystoreExists = false →
      (get_keystore env).2.countP isKeytoolEv = 1 ∧
      (cmdOk (env.run keytoolCmd) = true →
        (get_keystore env).1 = some tmpKeystorePath)) ∧
    (env.debugKeystoreExists = true →
      get_keystore env = (some androidDebugKeystore, [])) := by
  have hkt : isKeytoolEv (Event.invoke keytoolCmd (some 120)) = true := by
    simp [isKeytoolEv, keytoolCmd]
  constructor
  · intro h
    by_cases hk : cmdOk (env.run keytoolCmd)
    · refine ⟨?_, fun _ => ?_⟩ <;>
        simp [get_keystore, h, run_command, hk, List.countP_cons, hkt]
    · refine ⟨?_, fun hcon => absurd hcon hk⟩
      simp [get_keystore, h, run_command, hk, List.countP_cons, hkt]
  · intro h
    simp [get_keystore, h]

/-- Witness for C8 amended at the counterexample world: one `keytool`
invocation, resolving the fixed temporary path. -/
theorem C8_keystore_amended_witness :
    (get_keystore envC8).2.countP isKeytoolEv = 1 ∧
    (get_keystore envC8).1 = some tmpKeystorePath := by
  have h := (C8_keystore_amended envC8).1 (by decide)
  exact ⟨h.1, h.2 (by decide)⟩

/-! ## C7: what ends up at the user-specified output path -/

theorem mem_applyEvent (env : Env) (td o : String) (ho : strPref td o = false)
    (fs : List String) (e : Event) :
    o ∈ applyEvent env td fs e ↔ writesOkTo env o e = true ∨ o ∈ fs := by
  cases e with
  | invoke c t =>
    rcases hcw : cmdWrites c with _ | p
    · simp [applyEvent, writesOkTo, hcw]
    · by_cases hok : cmdOk (env.run c)
      · simp only [applyEvent, writesOkTo, hcw, hok, if_true, List.mem_cons,
          Bool.and_true, beq_iff_eq, Option.some.injEq]
        constructor <;> rintro (h | h)
        · exact Or.inl h.symm
        · exact Or.inr h
        · exact Or.inl h.symm
        · exact Or.inr h
      · simp [applyEvent, writesOkTo, hcw, hok]
  | mkdtemp => simp [applyEvent, writesOkTo]
  | rmtree b =>
    cases b
    · simp [applyEvent, writesOkTo]
    · simp [applyEvent, writesOkTo, List.mem_filter, ho]

theorem mem_foldl_applyEvent (env : Env) (td o : String)
    (ho : strPref td o = false) :
    ∀ (tr : List Event) (fs : List String),
      o ∈ tr.foldl (applyEvent env td) fs ↔
        tr.any (writesOkTo env o) = true ∨ o ∈ fs := by
  intro tr
  induction tr with
  | nil => intro fs; simp
  | cons e tr ih =>
    intro fs
    rw [List.foldl_cons, ih (applyEvent env td fs e),
      mem_applyEvent env td o ho fs e, List.any_cons]
    simp only [Bool.or_eq_true]
    tauto

theorem fsAfter_mem (env : Env) (td o : String) (ho : strPref td o = false)
    (tr : List Event) :
    o ∈ fsAfter env td tr ↔ tr.any (writesOkTo env o) = true := by
  unfold fsAfter
  rw [mem_foldl_applyEvent env td o ho tr []]
  simp

theorem rebuildCmd_shape (env : Env) (i r : String) (hr0 : r ≠ "") :
    rebuildCmd env i r = "apktool" :: "b" :: "-o" :: r ::
      ((if detect_high_sdk env then ["--use-aapt2"] else []) ++
        (if i = "" then [] else [i])) := by
  have hb0 : (r == "") = false := beq_false_of_ne hr0
  unfold rebuildCmd
  cases hd : detect_high_sdk env
  · by_cases hi : i = ""
    · simp [hd, hi, List.filter, hb0]
    · simp [hd, hi, List.filter, hb0, beq_false_of_ne hi]
  · by_cases hi : i = ""
    · simp [hd, hi, List.filter, hb0]
    · simp [hd, hi, List.filter, hb0, beq_false_of_ne hi]

theorem writes_eq_sign_of_ne (env : Env) (o : String) (c : List String)
    (t : Option Nat) (w : Option String)
    (hw : cmdWrites c = w) (hne : w ≠ some o) (hs : isSignCmd o c = false) :
    writesOkTo env o (Event.invoke c t) = isSignOkEv env o (Event.invoke c t) := by
  simp [writesOkTo, isSignOkEv, hw, hs, beq_false_of_ne hne]

theorem writes_eq_sign_signCmd (env : Env) (o ks i' : String) (t : Option Nat) :
    writesOkTo env o (Event.invoke (signCmd ks o i') t) =
      isSignOkEv env o (Event.invoke (signCmd ks o i') t) := by
  simp [writesOkTo, isSignOkEv, isSignCmd, signCmd, cmdWrites]

theorem rebuild_writes_eq (env : Env) (i td o : String)
    (ho : strPref td o = false) (hio : (i == "-o") = false) :
    ∀ e ∈ (rebuild_apk env i (td ++ "/unsigned.apk")).2,
      writesOkTo env o e = isSignOkEv env o e := by
  intro e he
  have hr0 : (td ++ "/unsigned.apk") ≠ "" :=
    append_ne_of_length_lt td (by decide)
  have hne : some (td ++ "/unsigned.apk") ≠ some o := fun hcon =>
    ne_append_of_strPref_false ho "/unsigned.apk" (Option.some.inj hcon).symm
  have hshape := rebuildCmd_shape env i (td ++ "/unsigned.apk") hr0
  have hw1 : cmdWrites (rebuildCmd env i (td ++ "/unsigned.apk")) =
      some (td ++ "/unsigned.apk") := by
    rw [hshape]; simp [cmdWrites, afterFlag]
  have hs1 : isSignCmd o (rebuildCmd env i (td ++ "/unsigned.apk")) = false := by
    rw [hshape]; simp [isSignCmd]
  have hw2 : cmdWrites (rebuildFallbackCmd i (td ++ "/unsigned.apk")) =
      some (td ++ "/unsigned.apk") := by
    simp [cmdWrites, rebuildFallbackCmd, afterFlag, hio]
  have hs2 : isSignCmd o (rebuildFallbackCmd i (td ++ "/unsigned.apk")) =
      false := by
    simp [isSignCmd, rebuildFallbackCmd]
  by_cases hm : env.manifestExists
  · by_cases h1 : cmdOk (env.run (rebuildCmd env i (td ++ "/unsigned.apk")))
    · simp [rebuild_apk, hm, run_command, h1] at he
      subst he
      exact writes_eq_sign_of_ne env o _ _ _ hw1 hne hs1
    · simp [rebuild_apk, hm, run_command, h1] at he
      rcases he with he | he <;> subst he
      · exact writes_eq_sign_of_ne env o _ _ _ hw1 hne hs1
      · exact writes_eq_sign_of_ne env o _ _ _ hw2 hne hs2
  · simp [rebuild_apk, hm] at he

theorem align_writes_eq (env : Env) (td o : String)
    (ho : strPref td o = false) :
    ∀ e ∈ (align_apk env (td ++ "/unsigned.apk") (td ++ "/aligned.apk")).2,
      writesOkTo env o e = isSignOkEv env o e := by
  intro e he
  have hne : some (td ++ "/aligned.apk") ≠ some o := fun hcon =>
    ne_append_of_strPref_false ho "/aligned.apk" (Option.some.inj hcon).symm
  by_cases h1 : cmdOk
    (env.run ["zipalign", "-v", "4", td ++ "/unsigned.apk", td ++ "/aligned.apk"])
  · simp [align_apk, run_command, h1] at he
    rcases he with he | he <;> subst he
    · exact writes_eq_sign_of_ne env o _ _ _ rfl hne rfl
    · exact writes_eq_sign_of_ne env o _ _ _ rfl (fun h => Option.noConfusion h) rfl
  · simp [align_apk, run_command, h1] at he
    subst he
    exact writes_eq_sign_of_ne env o _ _ _ rfl hne rfl

theorem resolveKeystore_writes_eq (env : Env) (o : String) (k : Option String)
    (hko : o ≠ tmpKeystorePath) :
    ∀ e ∈ (resolveKeystore env k).2, writesOkTo env o e = isSignOkEv env o e := by
  intro e he
  have hne : some tmpKeystorePath ≠ some o := fun hcon =>
    hko (Option.some.inj hcon).symm
  rcases resolveKeystore_trace env k with h | h <;> rw [h] at he
  · simp at he
  · simp at he
    subst he
    exact writes_eq_sign_of_ne env o _ _ _ rfl hne rfl

theorem sign_writes_eq (env : Env) (i' o : String) (k : Option String)
    (hko : o ≠ tmpKeystorePath) :
    ∀ e ∈ (sign_apk env i' o k).2, writesOkTo env o e = isSignOkEv env o e := by
  intro e he
  have hres := resolveKeystore_writes_eq env o k hko
  rcases hr : resolveKeystore env k with ⟨ks?, t0⟩
  rw [hr] at hres
  rcases ks? with _ | ks
  · simp only [sign_apk, hr] at he
    exact hres e he
  · by_cases h1 : cmdOk (env.run (signCmd ks o i'))
    · simp [sign_apk, hr, run_command, h1] at he
      rcases he with he | he | he
      · exact hres e he
      · subst he
        exact writes_eq_sign_signCmd env o ks i' _
      · subst he
        exact writes_eq_sign_of_ne env o _ _ _ rfl
          (fun h => Option.noConfusion h) rfl
    · simp [sign_apk, hr, run_command, h1] at he
      rcases he with he | he
      · exact hres e he
      · subst he
        exact writes_eq_sign_signCmd env o ks i' _

theorem install_apk_events_shape (env : Env) (p : String) :
    ∀ e ∈ (install_apk env p).2,
      e = enumEvent ∨ ∃ d, e = Event.invoke (installCmd d p) (some 120) := by
  intro e he
  rcases hd : env.enumDevices with _ | lines
  · simp [install_apk, hd] at he
    left; exact he
  · simp only [install_apk, hd] at he
    split at he
    · simp at he
      left; exact he
    · simp [run_command] at he
      rcases he with he | he
      · left; exact he
      · obtain ⟨d, _, hde⟩ := he
        exact Or.inr ⟨_, hde⟩

theorem install_writes_eq (env : Env) (p o : String) :
    ∀ e ∈ (install_apk env p).2, writesOkTo env o e = isSignOkEv env o e := by
  intro e he
  rcases install_apk_events_shape env p e he with rfl | ⟨d, rfl⟩
  · rfl
  · exact writes_eq_sign_of_ne env o _ _ _ rfl
      (fun h => Option.noConfusion h) rfl

theorem phasesRun_writes_eq (env : Env) (i o td : String) (inst : Bool)
    (k : Option String) (ho : strPref td o = false)
    (hio : (i == "-o") = false) (hko : o ≠ tmpKeystorePath) :
    ∀ e ∈ (phasesRun env i o td inst k).2,
      writesOkTo env o e = isSignOkEv env o e := by
  intro e he
  have h1 := rebuild_writes_eq env i td o ho hio
  have h2 := align_writes_eq env td o ho
  have h3 := sign_writes_eq env (td ++ "/aligned.apk") o k hko
  have h4 := install_writes_eq env o o
  rcases hr : rebuild_apk env i (td ++ "/unsigned.apk") with ⟨r1, t1⟩
  rw [hr] at h1
  rcases ha : align_apk env (td ++ "/unsigned.apk") (td ++ "/aligned.apk") with ⟨r2, t2⟩
  rw [ha] at h2
  rcases hs : sign_apk env (td ++ "/aligned.apk") o k with ⟨r3, t3⟩
  rw [hs] at h3
  rcases hi : install_apk env o with ⟨r4, t4⟩
  rw [hi] at h4
  cases r1
  · simp [phasesRun, hr] at he
    exact h1 e he
  · cases r2
    · simp [phasesRun, hr, ha] at he
      rcases he with he | he
      · exact h1 e he
      · exact h2 e he
    · cases r3
      · simp [phasesRun, hr, ha, hs] at he
        rcases he with he | he | he
        · exact h1 e he
        · exact h2 e he
        · exact h3 e he
      · cases inst
        · simp [phasesRun, hr, ha, hs] at he
          rcases he with he | he | he
          · exact h1 e he
          · exact h2 e he
          · exact h3 e he
        · rcases r4 with _ | b <;>
          · simp [phasesRun, hr, ha, hs, hi] at he
            rcases he with he | he | he | he
            · exact h1 e he
            · exact h2 e he
            · exact h3 e he
            · exact h4 e he

theorem process_writes_eq (env : Env) (rmOk : Bool) (i o td : String)
    (inst : Bool) (k : Option String) (ho : strPref td o = false)
    (hio : (i == "-o") = false) (hko : o ≠ tmpKeystorePath) :
    ∀ e ∈ (process_apk env rmOk i o td inst k).trace,
      writesOkTo env o e = isSignOkEv env o e := by
  intro e he
  rcases hml : missingList env with _ | ⟨t, ts⟩
  · rcases hp : phasesRun env i o td inst k with ⟨pok, pt⟩
    have hpt := phasesRun_writes_eq env i o td inst k ho hio hko
    rw [hp] at hpt
    simp [process_apk, hml, hp] at he
    rcases he with rfl | he | rfl
    · rfl
    · exact hpt e he
    · rfl
  · simp [process_apk, hml] at he

theorem any_congr_of_mem {α : Type} {l : List α} {p q : α → Bool}
    (h : ∀ e ∈ l, p e = q e) : l.any p = l.any q := by
  induction l with
  | nil => rfl
  | cons e es ih =>
    rw [List.any_cons, List.any_cons, h e (List.mem_cons_self e es),
      ih (fun x hx => h x (List.mem_cons_of_mem _ hx))]

/-- C7 counterexample: a run whose sign invocation exits zero but whose
signature verification exits non-zero reports overall failure, yet the signed
artifact is left at the user-specified output path (the sign step wrote it and
nothing removes it — only the working directory is cleaned up). -/
theorem C7_artifact_left_counterexample :
    (process_apk envC7 true "in" "out.apk" "/tmp/w" false none).ok = false ∧
    "out.apk" ∈ fsAfter envC7 "/tmp/w"
      (process_apk envC7 true "in" "out.apk" "/tmp/w" false none).trace := by
  decide

/-- C7 amended: for an output path outside the working directory (and distinct
from the fixed generated-keystore path, with an input directory not named
`-o`), the file at the user-specified output path at the end of a run exists
iff the run made a zero-exit sign invocation targeting it — the output is
written by the sign transform, not by the verification step, so a run that
fails *after* a successful sign invocation (e.g. at signature verification)
leaves the artifact behind, while a run that fails before or at the sign
invocation leaves nothing there. -/
theorem C7_output_written_only_by_sign (env : Env) (rmOk : Bool)
    (i o td : String) (inst : Bool) (k : Option String)
    (ho : strPref td o = false) (hko : o ≠ tmpKeystorePath) (hio : i ≠ "-o") :
    o ∈ fsAfter env td (process_apk env rmOk i o td inst k).trace ↔
      (process_apk env rmOk i o td inst k).trace.any (isSignOkEv env o) = true := by
  rw [fsAfter_mem env td o ho,
    any_congr_of_mem (process_writes_eq env rmOk i o td inst k ho
      (beq_false_of_ne hio) hko)]

/-- Witness for C7 amended at the counterexample world: the artifact is at the
output path, and indeed the trace contains a zero-exit sign invocation. -/
theorem C7_output_written_only_by_sign_witness :
    "out.apk" ∈ fsAfter envC7 "/tmp/w"
        (process_apk envC7 true "in" "out.apk" "/tmp/w" false none).trace ↔
      (process_apk envC7 true "in" "out.apk" "/tmp/w" false
          none).trace.any (isSignOkEv envC7 "out.apk") = true :=
  C7_output_written_only_by_sign envC7 true "in" "out.apk" "/tmp/w" false none
    (by decide) (by decide) (by decide)

end ApkReforge
